import Mathlib

/-!
# Verification of the i915 delayed PM QoS controller

Shallow embedding of the GPU-bound/idle PM QoS hinting core found in
`drivers/gpu/drm/i915/gt/intel_gt_pm.c` (the `rf_qos` functions) and in the
standalone `intel_qos` module (the `sf_qos` functions), together with proofs
about the claims of the specification.

Modelling conventions:
* `u64` values are `Nat` kept below `2^64`; `u64` addition/subtraction that can
  wrap is written with an explicit `% 2^64`.
* `s32` values are `Int` in the range `[-2^31, 2^31)`; the C conversion of an
  unsigned 64-bit quantity to `s32` is `toS32`, and C negation of an `s32`
  (which wraps at `INT_MIN`) is `negS32`.
* `atomic_t` (`active_count`) is an `Int` updated through `wrapS32`, the
  two's-complement wrap of 32-bit signed increment/decrement.
* `ktime_get_ns()` is modelled by passing the current monotonic time `t1` to
  each operation; all clock reads inside a single call return that instant.
* The kernel timer is modelled as `Option Nat`: `none` when unarmed, `some d`
  when armed with absolute deadline `d` (in nanoseconds, following the spec's
  nanosecond timer-service interface; jiffies granularity is not modelled).
-/

set_option autoImplicit false

namespace IntelQos

/-- Two's-complement wrap of an integer into the signed 32-bit range
`[-2^31, 2^31)`, as performed by 32-bit signed overflow in the kernel. -/
def wrapS32 (z : Int) : Int := (z + 2 ^ 31) % 2 ^ 32 - 2 ^ 31

/-- C conversion of an unsigned 64-bit value to `s32`: truncate to 32 bits and
reinterpret as two's complement. -/
def toS32 (n : Nat) : Int :=
  let m : Nat := n % 2 ^ 32
  if m < 2 ^ 31 then (m : Int) else (m : Int) - 2 ^ 32

/-- C unary negation of an `s32` value; `-INT_MIN` wraps back to `INT_MIN`. -/
def negS32 (z : Int) : Int := wrapS32 (-z)

/-- `#define PM_QOS_DEFAULT_VALUE (-1)` from `include/linux/pm_qos.h`. -/
def PM_QOS_DEFAULT_VALUE : Int := -1

/-- The controller state: the fields of `struct intel_qos`
(= `struct intel_gt.rf_qos`) that the QoS control loop reads and writes.
The opaque QoS request handle and the timer are threaded separately. -/
structure Qos where
  /-- Response frequency target used in GPU-bound conditions (`u32`). -/
  target_hz : Nat
  /-- Maximum delay before the PM QoS request is updated (`u32`). -/
  delay_max_ns : Nat
  /-- Exponent of the idle delay slope (`u32`). -/
  delay_slope_shift : Nat
  /-- Last "GPU became a bottleneck" commit deadline (`atomic64_t`). -/
  time_set_ns : Nat
  /-- Last "GPU stopped being a bottleneck" anchor (`atomic64_t`). -/
  time_clear_ns : Nat
  /-- Outstanding begin calls without matching end (`atomic_t`, signed). -/
  active_count : Int
deriving DecidableEq

/-- `time_to_sf_qos_update_ns` from the `intel_qos` module (identical to
`time_to_rf_qos_update_ns` in `intel_gt_pm.c`): time increment until the most
immediate PM QoS scaling response frequency update.

Source:
```
const u64 t1 = ktime_get_ns();
const u64 dt1 = qos->delay_max_ns;
if (atomic_read_acquire(&qos->active_count)) {
        const u64 t0 = atomic64_read(&qos->time_set_ns);
        return min(dt1, t0 <= t1 ? 0 : t0 - t1);
} else {
        const u64 t0 = atomic64_read(&qos->time_clear_ns);
        const unsigned int shift = qos->delay_slope_shift;
        return -(s32)(t1 <= t0 ? 1 : min(dt1, (t1 - t0) << shift));
}
```
The `u64` shift `(t1 - t0) << shift` is taken modulo `2^64`, and the `u64`
result is converted to the `s32` return type by `toS32`/`negS32`. -/
def time_to_sf_qos_update_ns (qos : Qos) (t1 : Nat) : Int :=
  let dt1 := qos.delay_max_ns
  if qos.active_count ≠ 0 then
    let t0 := qos.time_set_ns
    toS32 (min dt1 (if t0 ≤ t1 then 0 else t0 - t1))
  else
    let t0 := qos.time_clear_ns
    let shift := qos.delay_slope_shift
    negS32 (toS32 (if t1 ≤ t0 then 1 else min dt1 (((t1 - t0) <<< shift) % 2 ^ 64)))

/-- Modelled from the spec: the kernel timer primitive `timer_reduce`
(`kernel/time/timer.c`, not under `src/`), per the spec's timer-service
interface: "reduce_to(deadline_ns): no-op if an earlier deadline already
armed", otherwise (re)arm to the new, sooner deadline. -/
def timer_reduce (timer : Option Nat) (deadline : Nat) : Option Nat :=
  match timer with
  | none => some deadline
  | some d => if d ≤ deadline then some d else some deadline

/-- `intel_qos_update`: perform a delayed PM QoS update by reducing the timer
to fire `max(0, time_to_sf_qos_update_ns())` nanoseconds from now.

Source:
```
const u32 dt = max(0, time_to_sf_qos_update_ns(qos));
timer_reduce(&qos->timer, jiffies + nsecs_to_jiffies(dt));
```
The deadline is modelled in nanoseconds as `t1 + dt`. -/
def intel_qos_update (qos : Qos) (t1 : Nat) (timer : Option Nat) : Option Nat :=
  let dt := (max 0 (time_to_sf_qos_update_ns qos t1)).toNat
  timer_reduce timer (t1 + dt)

/-- `intel_qos_timeout`: the timer callback.  Returns the value issued to the
QoS request sink and the timer state after the callback (the timer is unarmed
when its callback runs, so a re-arm starts from `none`).

Source:
```
const s32 dt = time_to_sf_qos_update_ns(qos);
s32 value;
value = PM_QOS_DEFAULT_VALUE;
if (dt == 0)
        value = qos->target_hz;
cpu_scaling_response_qos_update_request(&qos->req, value);
if (dt > 0)
        intel_qos_update(qos);
```
-/
def intel_qos_timeout (qos : Qos) (t1 : Nat) : Int × Option Nat :=
  let dt := time_to_sf_qos_update_ns qos t1
  let value := if dt = 0 then toS32 qos.target_hz else PM_QOS_DEFAULT_VALUE
  (value, if 0 < dt then intel_qos_update qos t1 none else none)

/-- `intel_qos_overload_begin`: report the beginning of a period of GPU
utilization.  Returns the new controller state and timer.

Source:
```
const u32 dt = abs(time_to_sf_qos_update_ns(qos));
atomic64_set(&qos->time_set_ns, ktime_get_ns() + dt);
if (!atomic_fetch_inc_release(&qos->active_count))
        intel_qos_update(qos);
```
`abs` of an `s32` converted to `u32` is `Int.natAbs` (also at `INT_MIN`,
where the C wrap-around yields the same `u32` bit pattern `2^31`); the `u64`
store wraps modulo `2^64`. -/
def intel_qos_overload_begin (qos : Qos) (t1 : Nat) (timer : Option Nat) :
    Qos × Option Nat :=
  let dt := (time_to_sf_qos_update_ns qos t1).natAbs % 2 ^ 32
  let qos1 := { qos with time_set_ns := (t1 + dt) % 2 ^ 64 }
  let pre := qos1.active_count
  let qos2 := { qos1 with active_count := wrapS32 (pre + 1) }
  if pre = 0 then (qos2, intel_qos_update qos2 t1 timer) else (qos2, timer)

/-- `intel_qos_overload_end`: report the end of a period of GPU utilization.
Must be called once after each call to `intel_qos_overload_begin`.

Source:
```
const u32 dt = abs(time_to_sf_qos_update_ns(qos));
const unsigned int shift = qos->delay_slope_shift;
atomic64_set(&qos->time_clear_ns, ktime_get_ns() - (dt >> shift));
if (!atomic_dec_return_release(&qos->active_count))
        intel_qos_update(qos);
```
The `u64` subtraction `ktime_get_ns() - (dt >> shift)` wraps modulo `2^64`,
written here as `(t1 + 2^64 - x) % 2^64` with `x < 2^64`. -/
def intel_qos_overload_end (qos : Qos) (t1 : Nat) (timer : Option Nat) :
    Qos × Option Nat :=
  let dt := (time_to_sf_qos_update_ns qos t1).natAbs % 2 ^ 32
  let shift := qos.delay_slope_shift
  let qos1 :=
    { qos with time_clear_ns := (t1 + 2 ^ 64 - (dt >>> shift) % 2 ^ 64) % 2 ^ 64 }
  let post := wrapS32 (qos1.active_count - 1)
  let qos2 := { qos1 with active_count := post }
  if post = 0 then (qos2, intel_qos_update qos2 t1 timer) else (qos2, timer)

/-- `time_to_rf_qos_update_ns` from `intel_gt_pm.c`: the `rf_qos` copy of the
time-to-update computation.

Source:
```
const uint64_t t1 = ktime_get_ns();
const uint64_t dt1 = gt->rf_qos.delay_max_ns;
if (atomic_read_acquire(&gt->rf_qos.active_count)) {
        const uint64_t t0 = atomic64_read(&gt->rf_qos.time_set_ns);
        return min(dt1, t0 <= t1 ? 0 : t0 - t1);
} else {
        const uint64_t t0 = atomic64_read(&gt->rf_qos.time_clear_ns);
        const unsigned int shift = gt->rf_qos.delay_slope_shift;
        return -(int32_t)(t1 <= t0 ? 1 : min(dt1, (t1 - t0) << shift));
}
```
-/
def time_to_rf_qos_update_ns (gt : Qos) (t1 : Nat) : Int :=
  let dt1 := gt.delay_max_ns
  if gt.active_count ≠ 0 then
    let t0 := gt.time_set_ns
    toS32 (min dt1 (if t0 ≤ t1 then 0 else t0 - t1))
  else
    let t0 := gt.time_clear_ns
    let shift := gt.delay_slope_shift
    negS32 (toS32 (if t1 ≤ t0 then 1 else min dt1 (((t1 - t0) <<< shift) % 2 ^ 64)))

/-- `intel_gt_rf_qos_update` from `intel_gt_pm.c`:
`timer_reduce(&gt->rf_qos.timer, jiffies + nsecs_to_jiffies(max(0, dt)))`. -/
def intel_gt_rf_qos_update (gt : Qos) (t1 : Nat) (timer : Option Nat) :
    Option Nat :=
  let dt := (max 0 (time_to_rf_qos_update_ns gt t1)).toNat
  timer_reduce timer (t1 + dt)

/-- `intel_gt_rf_qos_timeout` from `intel_gt_pm.c`:
```
const int32_t dt = time_to_rf_qos_update_ns(gt);
if (dt == 0)
        pm_qos_update_request(&gt->rf_qos.req, gt->rf_qos.target_hz);
else
        pm_qos_update_request(&gt->rf_qos.req, PM_QOS_DEFAULT_VALUE);
if (dt > 0)
        intel_gt_rf_qos_update(gt);
```
-/
def intel_gt_rf_qos_timeout (gt : Qos) (t1 : Nat) : Int × Option Nat :=
  let dt := time_to_rf_qos_update_ns gt t1
  ((if dt = 0 then toS32 gt.target_hz else PM_QOS_DEFAULT_VALUE),
   if 0 < dt then intel_gt_rf_qos_update gt t1 none else none)

/-- `intel_gt_pm_active_begin` from `intel_gt_pm.c` (the `rf_qos` copy of
`intel_qos_overload_begin`). -/
def intel_gt_pm_active_begin (gt : Qos) (t1 : Nat) (timer : Option Nat) :
    Qos × Option Nat :=
  let dt := (time_to_rf_qos_update_ns gt t1).natAbs % 2 ^ 32
  let gt1 := { gt with time_set_ns := (t1 + dt) % 2 ^ 64 }
  let pre := gt1.active_count
  let gt2 := { gt1 with active_count := wrapS32 (pre + 1) }
  if pre = 0 then (gt2, intel_gt_rf_qos_update gt2 t1 timer) else (gt2, timer)

/-- `intel_gt_pm_active_end` from `intel_gt_pm.c` (the `rf_qos` copy of
`intel_qos_overload_end`). -/
def intel_gt_pm_active_end (gt : Qos) (t1 : Nat) (timer : Option Nat) :
    Qos × Option Nat :=
  let dt := (time_to_rf_qos_update_ns gt t1).natAbs % 2 ^ 32
  let shift := gt.delay_slope_shift
  let gt1 :=
    { gt with time_clear_ns := (t1 + 2 ^ 64 - (dt >>> shift) % 2 ^ 64) % 2 ^ 64 }
  let post := wrapS32 (gt1.active_count - 1)
  let gt2 := { gt1 with active_count := post }
  if post = 0 then (gt2, intel_gt_rf_qos_update gt2 t1 timer) else (gt2, timer)

/-! ### Arithmetic helper lemmas about the machine-integer conversions -/

theorem toS32_of_lt {n : Nat} (h : n < 2 ^ 31) : toS32 n = (n : Int) := by
  unfold toS32
  have hn : n % 2 ^ 32 = n := Nat.mod_eq_of_lt (by omega)
  simp only [hn]
  rw [if_pos (by exact_mod_cast h)]

theorem wrapS32_of_range {z : Int} (h1 : -2 ^ 31 ≤ z) (h2 : z < 2 ^ 31) :
    wrapS32 z = z := by
  unfold wrapS32
  have : (z + 2 ^ 31) % 2 ^ 32 = z + 2 ^ 31 := Int.emod_eq_of_lt (by omega) (by omega)
  omega

theorem wrapS32_range (z : Int) : -2 ^ 31 ≤ wrapS32 z ∧ wrapS32 z < 2 ^ 31 := by
  unfold wrapS32
  omega

theorem toS32_range (n : Nat) : -2 ^ 31 ≤ toS32 n ∧ toS32 n < 2 ^ 31 := by
  simp only [toS32]
  split <;> omega

theorem negS32_toS32_of_lt {n : Nat} (h : n < 2 ^ 31) :
    negS32 (toS32 n) = -(n : Int) := by
  rw [toS32_of_lt h]
  unfold negS32
  exact wrapS32_of_range (by omega) (by omega)

theorem time_to_sf_qos_update_ns_range (qos : Qos) (t1 : Nat) :
    -2 ^ 31 ≤ time_to_sf_qos_update_ns qos t1 ∧
      time_to_sf_qos_update_ns qos t1 < 2 ^ 31 := by
  unfold time_to_sf_qos_update_ns
  split
  · exact toS32_range _
  · exact wrapS32_range _

/-- Magnitude bound for the active branch: the `s32` reinterpretation of a
`u64` value that is at most `d < 2^32` has absolute value at most `d`. -/
theorem natAbs_toS32_le {w d : Nat} (hw : w ≤ d) (hd : d < 2 ^ 32) :
    (toS32 w).natAbs ≤ d := by
  unfold toS32
  have hm : w % 2 ^ 32 = w := Nat.mod_eq_of_lt (by omega)
  simp only [hm]
  split <;> omega

/-- Magnitude bound for the idle branch: negating the `s32` reinterpretation
of `w < 2^32` has absolute value at most `w`. -/
theorem natAbs_negS32_toS32_le {w : Nat} (hw : w < 2 ^ 32) :
    (negS32 (toS32 w)).natAbs ≤ w := by
  unfold negS32 wrapS32 toS32
  have hm : w % 2 ^ 32 = w := Nat.mod_eq_of_lt hw
  simp only [hm]
  split <;> omega

/-! ### Claim C1 -/

/-- **C1** (counterexample).  The claim that with `active_count > 0` the
function returns `min(delay_max_ns, max(0, time_set_ns - t1))` and is never
negative fails on the code: with `delay_max_ns = 2^31`, `time_set_ns = 2^31`
and `t1 = 0` the clamped `u64` value `2^31` is truncated by the `s32` return
type to `-2^31`, which is negative and differs from the claimed value. -/
theorem C1_counterexample :
    time_to_sf_qos_update_ns ⟨2, 2147483648, 0, 2147483648, 0, 1⟩ 0 =
        -2147483648 ∧
      time_to_sf_qos_update_ns ⟨2, 2147483648, 0, 2147483648, 0, 1⟩ 0 < 0 ∧
      min ((2147483648 : Nat) : Int) (max 0 (((2147483648 : Nat) : Int) - 0)) =
        2147483648 :=
  ⟨by decide, by decide, by decide⟩

/-- **C1** (amended).  For every controller state with `active_count > 0` and
`delay_max_ns < 2^31` (so the clamped value fits the `s32` return type),
`time_to_sf_qos_update_ns` returns `min(delay_max_ns, max(0, time_set_ns - t1))`;
in particular it returns exactly `0` whenever `time_set_ns ≤ t1`, and the
result is never negative. -/
theorem C1_active_time_to_update (q : Qos) (t1 : Nat)
    (hact : 0 < q.active_count) (hmax : q.delay_max_ns < 2 ^ 31) :
    time_to_sf_qos_update_ns q t1 =
        min (q.delay_max_ns : Int) (max 0 ((q.time_set_ns : Int) - (t1 : Int))) ∧
      (q.time_set_ns ≤ t1 → time_to_sf_qos_update_ns q t1 = 0) ∧
      0 ≤ time_to_sf_qos_update_ns q t1 := by
  have hne : q.active_count ≠ 0 := by omega
  have key : time_to_sf_qos_update_ns q t1 =
      ((min q.delay_max_ns
          (if q.time_set_ns ≤ t1 then 0 else q.time_set_ns - t1) : Nat) : Int) := by
    simp only [time_to_sf_qos_update_ns]
    rw [if_pos hne]
    exact toS32_of_lt (lt_of_le_of_lt (Nat.min_le_left _ _) hmax)
  rw [key]
  refine ⟨?_, fun h => ?_, ?_⟩ <;> split_ifs <;> push_cast <;> omega

/-- Witness for `C1_active_time_to_update` at a concrete state. -/
theorem C1_active_time_to_update_witness :
    0 < (⟨2, 10000000, 1, 100, 0, 1⟩ : Qos).active_count ∧
      (⟨2, 10000000, 1, 100, 0, 1⟩ : Qos).delay_max_ns < 2 ^ 31 ∧
      (time_to_sf_qos_update_ns ⟨2, 10000000, 1, 100, 0, 1⟩ 50 =
          min ((10000000 : Nat) : Int) (max 0 (((100 : Nat) : Int) - ((50 : Nat) : Int))) ∧
        ((100 : Nat) ≤ 50 → time_to_sf_qos_update_ns ⟨2, 10000000, 1, 100, 0, 1⟩ 50 = 0) ∧
        0 ≤ time_to_sf_qos_update_ns ⟨2, 10000000, 1, 100, 0, 1⟩ 50) :=
  ⟨by decide, by decide,
    C1_active_time_to_update ⟨2, 10000000, 1, 100, 0, 1⟩ 50 (by decide) (by decide)⟩

/-! ### Claim C2 -/

/-- **C2** (counterexample).  The claim that with `active_count == 0` and
`t1 > time_clear_ns` the function returns
`-min(delay_max_ns, (t1 - time_clear_ns) << delay_slope_shift)` fails on the
code: with `delay_max_ns = 2^32 - 1`, `time_clear_ns = 0`, `shift = 0` and
`t1 = 2^31 + 5` the inner `u64` value `2^31 + 5` is truncated by the `(s32)`
cast before negation, so the function returns `2^31 - 5` (a positive value)
instead of `-(2^31 + 5)`. -/
theorem C2_counterexample :
    time_to_sf_qos_update_ns ⟨2, 4294967295, 0, 0, 0, 0⟩ 2147483653 =
        2147483643 ∧
      (2147483643 : Int) ≠
        -min ((4294967295 : Nat) : Int) ((((2147483653 - 0) <<< 0 : Nat)) : Int) :=
  ⟨by decide, by decide⟩

/-- **C2** (amended).  For every controller state with `active_count = 0` and
`delay_max_ns < 2^31` (so the clamped magnitude fits the `s32` type),
`time_to_sf_qos_update_ns` returns exactly `-1` when `t1 ≤ time_clear_ns`, and
returns `-min(delay_max_ns, (t1 - time_clear_ns) << delay_slope_shift)` when
`t1 > time_clear_ns`, where the shifted value is the `u64` (mod `2^64`)
result computed by the code. -/
theorem C2_idle_time_to_update (q : Qos) (t1 : Nat)
    (hact : q.active_count = 0) (hmax : q.delay_max_ns < 2 ^ 31) :
    (t1 ≤ q.time_clear_ns → time_to_sf_qos_update_ns q t1 = -1) ∧
      (q.time_clear_ns < t1 →
        time_to_sf_qos_update_ns q t1 =
          -min (q.delay_max_ns : Int)
            ((((t1 - q.time_clear_ns) <<< q.delay_slope_shift) % 2 ^ 64 : Nat) : Int)) := by
  have hne : ¬(q.active_count ≠ 0) := by simp [hact]
  constructor
  · intro h
    simp only [time_to_sf_qos_update_ns]
    rw [if_neg hne, if_pos h]
    decide
  · intro h
    simp only [time_to_sf_qos_update_ns]
    rw [if_neg hne, if_neg (by omega : ¬t1 ≤ q.time_clear_ns)]
    have h1 : min q.delay_max_ns
        (((t1 - q.time_clear_ns) <<< q.delay_slope_shift) % 2 ^ 64) < 2 ^ 31 :=
      lt_of_le_of_lt (Nat.min_le_left _ _) hmax
    rw [negS32_toS32_of_lt h1]
    push_cast
    omega

/-- Witness for `C2_idle_time_to_update` at a concrete state. -/
theorem C2_idle_time_to_update_witness :
    (⟨2, 10000000, 1, 0, 40, 0⟩ : Qos).active_count = 0 ∧
      (⟨2, 10000000, 1, 0, 40, 0⟩ : Qos).delay_max_ns < 2 ^ 31 ∧
      ((100 : Nat) ≤ 40 → time_to_sf_qos_update_ns ⟨2, 10000000, 1, 0, 40, 0⟩ 100 = -1) ∧
      ((40 : Nat) < 100 →
        time_to_sf_qos_update_ns ⟨2, 10000000, 1, 0, 40, 0⟩ 100 =
          -min ((10000000 : Nat) : Int) ((((100 - 40) <<< 1) % 2 ^ 64 : Nat) : Int)) :=
  ⟨by decide, by decide,
    (C2_idle_time_to_update ⟨2, 10000000, 1, 0, 40, 0⟩ 100 (by decide) (by decide)).1,
    (C2_idle_time_to_update ⟨2, 10000000, 1, 0, 40, 0⟩ 100 (by decide) (by decide)).2⟩

/-! ### Claim C6 -/

/-- **C6** (counterexample).  The claim `|timeToUpdate()| ≤ delay_max_ns`
"including delay_max_ns = 0" fails on the code: with `delay_max_ns = 0`,
`active_count = 0` and `t1 ≤ time_clear_ns` the function returns the `-1`
sentinel, whose magnitude `1` exceeds `delay_max_ns = 0`. -/
theorem C6_counterexample :
    time_to_sf_qos_update_ns ⟨2, 0, 0, 0, 0, 0⟩ 0 = -1 ∧
      ¬((time_to_sf_qos_update_ns ⟨2, 0, 0, 0, 0, 0⟩ 0).natAbs ≤
          (⟨2, 0, 0, 0, 0, 0⟩ : Qos).delay_max_ns) :=
  ⟨by decide, by decide⟩

/-- **C6** (amended).  For every controller state (any `active_count`, any
`delay_slope_shift`, any times) with `delay_max_ns` in `u32` range, the
magnitude of `time_to_sf_qos_update_ns` is at most `max 1 delay_max_ns`:
the clamp `|result| ≤ delay_max_ns` holds whenever `delay_max_ns ≥ 1`, and
only the `-1` idle sentinel can exceed a zero `delay_max_ns`. -/
theorem C6_magnitude_clamped (q : Qos) (t1 : Nat)
    (hmax : q.delay_max_ns < 2 ^ 32) :
    (time_to_sf_qos_update_ns q t1).natAbs ≤ max 1 q.delay_max_ns := by
  simp only [time_to_sf_qos_update_ns]
  split
  · exact le_trans (natAbs_toS32_le (Nat.min_le_left _ _) hmax) (le_max_right _ _)
  · refine le_trans (natAbs_negS32_toS32_le ?_) ?_
    · split
      · omega
      · exact lt_of_le_of_lt (Nat.min_le_left _ _) hmax
    · split
      · exact le_max_left _ _
      · exact le_trans (Nat.min_le_left _ _) (le_max_right _ _)

/-- Witness for `C6_magnitude_clamped` at a concrete state. -/
theorem C6_magnitude_clamped_witness :
    (⟨2, 250000, 0, 0, 0, 0⟩ : Qos).delay_max_ns < 2 ^ 32 ∧
      (time_to_sf_qos_update_ns ⟨2, 250000, 0, 0, 0, 0⟩ 7).natAbs ≤
        max 1 (⟨2, 250000, 0, 0, 0, 0⟩ : Qos).delay_max_ns :=
  ⟨by decide, C6_magnitude_clamped ⟨2, 250000, 0, 0, 0, 0⟩ 7 (by decide)⟩

/-! ### Branch lemmas for the time-to-update computation -/

theorem ttq_active (q : Qos) (t1 : Nat) (ha : q.active_count ≠ 0) :
    time_to_sf_qos_update_ns q t1 =
      toS32 (min q.delay_max_ns
        (if q.time_set_ns ≤ t1 then 0 else q.time_set_ns - t1)) := by
  simp only [time_to_sf_qos_update_ns]
  rw [if_pos ha]

theorem ttq_idle (q : Qos) (t1 : Nat) (h0 : q.active_count = 0)
    (hlt : q.time_clear_ns < t1) :
    time_to_sf_qos_update_ns q t1 =
      negS32 (toS32 (min q.delay_max_ns
        (((t1 - q.time_clear_ns) <<< q.delay_slope_shift) % 2 ^ 64))) := by
  simp only [time_to_sf_qos_update_ns]
  rw [if_neg (by simp [h0]), if_neg (by omega)]

theorem ttq_idle_sentinel (q : Qos) (t1 : Nat) (h0 : q.active_count = 0)
    (hle : t1 ≤ q.time_clear_ns) :
    time_to_sf_qos_update_ns q t1 = -1 := by
  simp only [time_to_sf_qos_update_ns]
  rw [if_neg (by simp [h0]), if_pos hle]
  decide

/-- The controller state after an `overload_begin`, independently of which
branch of the first-nester test was taken. -/
theorem overload_begin_fst (q : Qos) (t1 : Nat) (tm : Option Nat) :
    (intel_qos_overload_begin q t1 tm).1 =
      { q with
        time_set_ns :=
          (t1 + (time_to_sf_qos_update_ns q t1).natAbs % 2 ^ 32) % 2 ^ 64,
        active_count := wrapS32 (q.active_count + 1) } := by
  simp only [intel_qos_overload_begin]
  split <;> rfl

/-- The controller state after an `overload_end`, independently of which
branch of the last-un-nester test was taken. -/
theorem overload_end_fst (q : Qos) (t1 : Nat) (tm : Option Nat) :
    (intel_qos_overload_end q t1 tm).1 =
      { q with
        time_clear_ns :=
          (t1 + 2 ^ 64 -
            (((time_to_sf_qos_update_ns q t1).natAbs % 2 ^ 32) >>>
              q.delay_slope_shift) % 2 ^ 64) % 2 ^ 64,
        active_count := wrapS32 (q.active_count - 1) } := by
  simp only [intel_qos_overload_end]
  split <;> rfl

/-! ### Claim C3 -/

/-- **C3.**  When the timer callback `intel_qos_timeout` runs, it issues a QoS
request with value `target_hz` if and only if the recomputed
`time_to_sf_qos_update_ns` equals `0`, otherwise it issues the default value
`PM_QOS_DEFAULT_VALUE`; and it re-arms the timer (calls the delayed update) if
and only if the recomputed value is strictly positive.  (`target_hz` is a
`u32` whose `s32` reinterpretation must differ from the `-1` default
sentinel.) -/
theorem C3_timeout_behaviour (q : Qos) (t1 : Nat)
    (htgt : q.target_hz < 2 ^ 32) (htgtne : q.target_hz ≠ 2 ^ 32 - 1) :
    ((intel_qos_timeout q t1).1 = toS32 q.target_hz ↔
        time_to_sf_qos_update_ns q t1 = 0) ∧
      ((intel_qos_timeout q t1).1 = PM_QOS_DEFAULT_VALUE ↔
        time_to_sf_qos_update_ns q t1 ≠ 0) ∧
      ((intel_qos_timeout q t1).2.isSome ↔ 0 < time_to_sf_qos_update_ns q t1) := by
  have hval : toS32 q.target_hz ≠ PM_QOS_DEFAULT_VALUE := by
    simp only [toS32, PM_QOS_DEFAULT_VALUE]
    have hm : q.target_hz % 2 ^ 32 = q.target_hz := Nat.mod_eq_of_lt htgt
    simp only [hm]
    split <;> omega
  have hval' : PM_QOS_DEFAULT_VALUE ≠ toS32 q.target_hz := Ne.symm hval
  simp only [intel_qos_timeout]
  by_cases h0 : time_to_sf_qos_update_ns q t1 = 0
  · simp [h0, hval, hval']
  · by_cases hpos : 0 < time_to_sf_qos_update_ns q t1
    · simp [h0, hpos, hval, hval', intel_qos_update, timer_reduce]
    · simp [h0, hpos, hval, hval']

/-- Witness for `C3_timeout_behaviour` at a concrete state (timer due now). -/
theorem C3_timeout_behaviour_witness :
    (⟨2, 100, 0, 1100, 0, 1⟩ : Qos).target_hz < 2 ^ 32 ∧
      (⟨2, 100, 0, 1100, 0, 1⟩ : Qos).target_hz ≠ 2 ^ 32 - 1 ∧
      (((intel_qos_timeout ⟨2, 100, 0, 1100, 0, 1⟩ 1100).1 = toS32 2 ↔
          time_to_sf_qos_update_ns ⟨2, 100, 0, 1100, 0, 1⟩ 1100 = 0) ∧
        ((intel_qos_timeout ⟨2, 100, 0, 1100, 0, 1⟩ 1100).1 = PM_QOS_DEFAULT_VALUE ↔
          time_to_sf_qos_update_ns ⟨2, 100, 0, 1100, 0, 1⟩ 1100 ≠ 0) ∧
        ((intel_qos_timeout ⟨2, 100, 0, 1100, 0, 1⟩ 1100).2.isSome ↔
          0 < time_to_sf_qos_update_ns ⟨2, 100, 0, 1100, 0, 1⟩ 1100)) :=
  ⟨by decide, by decide,
    C3_timeout_behaviour ⟨2, 100, 0, 1100, 0, 1⟩ 1100 (by decide) (by decide)⟩

/-! ### Claim C4 -/

/-- **C4.**  Every call to `intel_qos_overload_begin` stores
`now + |time_to_sf_qos_update_ns()|` into `time_set_ns` (with the time
increment evaluated before the store; the hypothesis rules out `u64`
wrap-around of the sum), then increments `active_count`; the delayed update is
requested if and only if the pre-increment `active_count` was `0`, and nested
calls leave the timer untouched. -/
theorem C4_overload_begin (q : Qos) (t1 : Nat) (tm : Option Nat)
    (hsum : t1 + (time_to_sf_qos_update_ns q t1).natAbs < 2 ^ 64) :
    ((intel_qos_overload_begin q t1 tm).1).time_set_ns =
        t1 + (time_to_sf_qos_update_ns q t1).natAbs ∧
      ((intel_qos_overload_begin q t1 tm).1).active_count =
        wrapS32 (q.active_count + 1) ∧
      (q.active_count = 0 →
        (intel_qos_overload_begin q t1 tm).2 =
          intel_qos_update (intel_qos_overload_begin q t1 tm).1 t1 tm) ∧
      (q.active_count ≠ 0 → (intel_qos_overload_begin q t1 tm).2 = tm) := by
  have hr := time_to_sf_qos_update_ns_range q t1
  have habs : (time_to_sf_qos_update_ns q t1).natAbs % 2 ^ 32 =
      (time_to_sf_qos_update_ns q t1).natAbs := Nat.mod_eq_of_lt (by omega)
  simp only [intel_qos_overload_begin, habs, Nat.mod_eq_of_lt hsum]
  by_cases h : q.active_count = 0
  · simp [h]
  · simp [h]

/-- Witness for `C4_overload_begin` at a concrete state (first nester). -/
theorem C4_overload_begin_witness :
    5 + (time_to_sf_qos_update_ns ⟨2, 10, 0, 0, 0, 0⟩ 5).natAbs < 2 ^ 64 ∧
      (((intel_qos_overload_begin ⟨2, 10, 0, 0, 0, 0⟩ 5 none).1).time_set_ns =
          5 + (time_to_sf_qos_update_ns ⟨2, 10, 0, 0, 0, 0⟩ 5).natAbs ∧
        ((intel_qos_overload_begin ⟨2, 10, 0, 0, 0, 0⟩ 5 none).1).active_count =
          wrapS32 (0 + 1) ∧
        ((0 : Int) = 0 →
          (intel_qos_overload_begin ⟨2, 10, 0, 0, 0, 0⟩ 5 none).2 =
            intel_qos_update (intel_qos_overload_begin ⟨2, 10, 0, 0, 0, 0⟩ 5 none).1
              5 none) ∧
        ((0 : Int) ≠ 0 →
          (intel_qos_overload_begin ⟨2, 10, 0, 0, 0, 0⟩ 5 none).2 = none)) :=
  ⟨by decide, C4_overload_begin ⟨2, 10, 0, 0, 0, 0⟩ 5 none (by decide)⟩

/-! ### Claim C5 -/

/-- **C5.**  Every call to `intel_qos_overload_end` stores
`now - (|time_to_sf_qos_update_ns()| >> delay_slope_shift)` into
`time_clear_ns` (the time increment evaluated before the store; the
hypotheses rule out `u64` wrap-around of the subtraction), then decrements
`active_count`; the delayed update is requested if and only if the
post-decrement `active_count` is `0`. -/
theorem C5_overload_end (q : Qos) (t1 : Nat) (tm : Option Nat)
    (hsub : (time_to_sf_qos_update_ns q t1).natAbs >>> q.delay_slope_shift ≤ t1)
    (ht1 : t1 < 2 ^ 64) :
    ((intel_qos_overload_end q t1 tm).1).time_clear_ns =
        t1 - (time_to_sf_qos_update_ns q t1).natAbs >>> q.delay_slope_shift ∧
      ((intel_qos_overload_end q t1 tm).1).active_count =
        wrapS32 (q.active_count - 1) ∧
      (wrapS32 (q.active_count - 1) = 0 →
        (intel_qos_overload_end q t1 tm).2 =
          intel_qos_update (intel_qos_overload_end q t1 tm).1 t1 tm) ∧
      (wrapS32 (q.active_count - 1) ≠ 0 →
        (intel_qos_overload_end q t1 tm).2 = tm) := by
  have hr := time_to_sf_qos_update_ns_range q t1
  have habs : (time_to_sf_qos_update_ns q t1).natAbs % 2 ^ 32 =
      (time_to_sf_qos_update_ns q t1).natAbs := Nat.mod_eq_of_lt (by omega)
  have hclear :
      (t1 + 2 ^ 64 -
          ((time_to_sf_qos_update_ns q t1).natAbs >>> q.delay_slope_shift) % 2 ^ 64) %
          2 ^ 64 =
        t1 - (time_to_sf_qos_update_ns q t1).natAbs >>> q.delay_slope_shift := by
    generalize hg :
      (time_to_sf_qos_update_ns q t1).natAbs >>> q.delay_slope_shift = x at hsub ⊢
    omega
  simp only [intel_qos_overload_end, habs, hclear]
  by_cases h : wrapS32 (q.active_count - 1) = 0
  · simp [h]
  · simp [h]

/-- Witness for `C5_overload_end` at a concrete state (last un-nester). -/
theorem C5_overload_end_witness :
    (time_to_sf_qos_update_ns ⟨2, 100, 0, 1100, 0, 1⟩ 1001).natAbs >>> 0 ≤ 1001 ∧
      (1001 : Nat) < 2 ^ 64 ∧
      (((intel_qos_overload_end ⟨2, 100, 0, 1100, 0, 1⟩ 1001 none).1).time_clear_ns =
          1001 - (time_to_sf_qos_update_ns ⟨2, 100, 0, 1100, 0, 1⟩ 1001).natAbs >>> 0 ∧
        ((intel_qos_overload_end ⟨2, 100, 0, 1100, 0, 1⟩ 1001 none).1).active_count =
          wrapS32 (1 - 1) ∧
        (wrapS32 ((1 : Int) - 1) = 0 →
          (intel_qos_overload_end ⟨2, 100, 0, 1100, 0, 1⟩ 1001 none).2 =
            intel_qos_update (intel_qos_overload_end ⟨2, 100, 0, 1100, 0, 1⟩ 1001 none).1
              1001 none) ∧
        (wrapS32 ((1 : Int) - 1) ≠ 0 →
          (intel_qos_overload_end ⟨2, 100, 0, 1100, 0, 1⟩ 1001 none).2 = none)) :=
  ⟨by decide, by decide,
    C5_overload_end ⟨2, 100, 0, 1100, 0, 1⟩ 1001 none (by decide) (by decide)⟩

/-! ### Claim C7 -/

/-- The controller state after `intel_qos_overload_begin` at time `tb`,
starting from a settled idle state `s0` (no timer armed). -/
def qos_after_burst_begin (s0 : Qos) (tb : Nat) : Qos :=
  (intel_qos_overload_begin s0 tb none).1

/-- The timer armed by that `intel_qos_overload_begin`. -/
def qos_timer_after_burst_begin (s0 : Qos) (tb : Nat) : Option Nat :=
  (intel_qos_overload_begin s0 tb none).2

/-- The controller state after the matching `intel_qos_overload_end` at time
`te`. -/
def qos_after_burst_end (s0 : Qos) (tb te : Nat) : Qos :=
  (intel_qos_overload_end (qos_after_burst_begin s0 tb) te
    (qos_timer_after_burst_begin s0 tb)).1

/-- **C7** (counterexample).  The claim that a burst shorter than
`delay_max_ns` starting from the settled idle state never flips the QoS value
to `target_hz` fails on the code once `delay_max_ns ≥ 2^31`: with
`delay_max_ns = 0xF0000000 = 4026531840`, fully decayed idle
(`time_clear_ns = 0`), `overload_begin` at `tb = 5000000000` computes the
idle time increment `-(s32)(delay_max_ns) = +268435456` — truncated positive
— so `time_set_ns = tb + (2^32 - delay_max_ns) = 5268435456` and the timer is
armed exactly there; that deadline lies inside a burst ending at
`te = 6000000000` (duration `10^9 < delay_max_ns`), and the callback firing
there recomputes `dt = 0` and issues `target_hz = 2`, not the default. -/
theorem C7_counterexample :
    qos_timer_after_burst_begin ⟨2, 4026531840, 0, 0, 0, 0⟩ 5000000000 =
        some 5268435456 ∧
      (5268435456 : Nat) < 6000000000 ∧
      (6000000000 : Nat) - 5000000000 < 4026531840 ∧
      (intel_qos_timeout
          (qos_after_burst_begin ⟨2, 4026531840, 0, 0, 0, 0⟩ 5000000000)
          5268435456).1 = toS32 2 ∧
      toS32 2 ≠ PM_QOS_DEFAULT_VALUE :=
  ⟨by decide, by decide, by decide, by decide, by decide⟩

/-- **C7** (amended).  For configurations with `delay_max_ns < 2^31` (so the
`s32` truncation cannot turn the idle-decay magnitude into a shortened, or
sign-flipped, commit delay — see the counterexample for `delay_max_ns ≥
2^31`): starting from the settled idle state (`active_count = 0`, timer
unarmed, idle long enough that the decay has reached the `delay_max_ns`
clamp), an `overload_begin` at `tb` followed by its matching `overload_end`
at `te` with burst duration shorter than `delay_max_ns` never lets the QoS
value flip to `target_hz`: the timer callback, whenever it fires — during the
burst (`tb ≤ tf < te`) or after it (`te ≤ tf`, with the idle-decay shift not
wrapping `u64`) — issues the default value.  The other hypotheses only rule
out `u64` overflow of the nanosecond clock values. -/
theorem C7_short_burst_never_target (tgt dmax shift tset0 tc tb te tf : Nat)
    (hd1 : 1 ≤ dmax) (hd2 : dmax < 2 ^ 31) (hd3 : dmax ≤ tb)
    (hdecay : dmax ≤ (tb - tc) <<< shift) (hnw : (tb - tc) <<< shift < 2 ^ 64)
    (hbe : tb ≤ te) (hshort : te < tb + dmax) (h64 : tb + dmax < 2 ^ 64) :
    (tb ≤ tf → tf < te →
      (intel_qos_timeout
          (qos_after_burst_begin ⟨tgt, dmax, shift, tset0, tc, 0⟩ tb) tf).1 =
        PM_QOS_DEFAULT_VALUE) ∧
      (te ≤ tf →
        (tf - (qos_after_burst_end ⟨tgt, dmax, shift, tset0, tc, 0⟩ tb te).time_clear_ns)
            <<< shift < 2 ^ 64 →
        (intel_qos_timeout
            (qos_after_burst_end ⟨tgt, dmax, shift, tset0, tc, 0⟩ tb te) tf).1 =
          PM_QOS_DEFAULT_VALUE) := by
  have htc : tc < tb := by
    rcases Nat.lt_or_ge tc tb with h | h
    · exact h
    · exfalso
      have hz : tb - tc = 0 := by omega
      rw [hz, Nat.zero_shiftLeft] at hdecay
      omega
  have hA : time_to_sf_qos_update_ns ⟨tgt, dmax, shift, tset0, tc, 0⟩ tb =
      -(dmax : Int) := by
    rw [ttq_idle _ _ rfl htc]
    show negS32 (toS32 (min dmax (((tb - tc) <<< shift) % 2 ^ 64))) = -(dmax : Int)
    rw [Nat.mod_eq_of_lt hnw, min_eq_left hdecay]
    exact negS32_toS32_of_lt hd2
  have hs1 : qos_after_burst_begin ⟨tgt, dmax, shift, tset0, tc, 0⟩ tb =
      ⟨tgt, dmax, shift, tb + dmax, tc, 1⟩ := by
    rw [qos_after_burst_begin, overload_begin_fst, hA]
    simp only [Int.natAbs_neg, Int.natAbs_ofNat]
    rw [Nat.mod_eq_of_lt (show dmax < 2 ^ 32 by omega), Nat.mod_eq_of_lt h64]
    simp only [Qos.mk.injEq, true_and, and_true]
    decide
  have hdte : time_to_sf_qos_update_ns ⟨tgt, dmax, shift, tb + dmax, tc, 1⟩ te =
      ((tb + dmax - te : Nat) : Int) := by
    rw [ttq_active _ _ (by simp)]
    show toS32 (min dmax (if tb + dmax ≤ te then 0 else tb + dmax - te)) = _
    rw [if_neg (by omega), min_eq_right (by omega)]
    exact toS32_of_lt (by omega)
  constructor
  · intro hf1 hf2
    rw [hs1]
    have hdt : time_to_sf_qos_update_ns ⟨tgt, dmax, shift, tb + dmax, tc, 1⟩ tf =
        ((min dmax (tb + dmax - tf) : Nat) : Int) := by
      rw [ttq_active _ _ (by simp)]
      show toS32 (min dmax (if tb + dmax ≤ tf then 0 else tb + dmax - tf)) = _
      rw [if_neg (by omega)]
      exact toS32_of_lt (lt_of_le_of_lt (Nat.min_le_left _ _) hd2)
    simp only [intel_qos_timeout, hdt]
    rw [if_neg (show ¬((min dmax (tb + dmax - tf) : Nat) : Int) = 0 by
      push_cast; omega)]
  · intro hf1 hwrap
    have hvsh : (tb + dmax - te) >>> shift ≤ tb + dmax - te := by
      rw [Nat.shiftRight_eq_div_pow]
      exact Nat.div_le_self _ _
    have hs2 : qos_after_burst_end ⟨tgt, dmax, shift, tset0, tc, 0⟩ tb te =
        ⟨tgt, dmax, shift, tb + dmax, te - (tb + dmax - te) >>> shift, 0⟩ := by
      rw [qos_after_burst_end, overload_end_fst, hs1, hdte]
      simp only [Int.natAbs_ofNat]
      rw [Nat.mod_eq_of_lt (show tb + dmax - te < 2 ^ 32 by omega),
        Nat.mod_eq_of_lt (show (tb + dmax - te) >>> shift < 2 ^ 64 by omega)]
      have hbig : (te + 2 ^ 64 - (tb + dmax - te) >>> shift) % 2 ^ 64 =
          te - (tb + dmax - te) >>> shift := by
        generalize (tb + dmax - te) >>> shift = x at hvsh ⊢
        omega
      rw [hbig]
      simp only [Qos.mk.injEq, true_and, and_true]
      decide
    rw [hs2] at hwrap ⊢
    by_cases hc : tf ≤ te - (tb + dmax - te) >>> shift
    · have hsen : time_to_sf_qos_update_ns
          ⟨tgt, dmax, shift, tb + dmax, te - (tb + dmax - te) >>> shift, 0⟩ tf = -1 :=
        ttq_idle_sentinel _ _ rfl hc
      simp only [intel_qos_timeout, hsen]
      rw [if_neg (by omega)]
    · push_neg at hc
      have hw2 : ((tf - (te - (tb + dmax - te) >>> shift)) <<< shift) % 2 ^ 64 =
          (tf - (te - (tb + dmax - te) >>> shift)) <<< shift :=
        Nat.mod_eq_of_lt hwrap
      have hpos : 1 ≤ (tf - (te - (tb + dmax - te) >>> shift)) <<< shift := by
        rw [Nat.shiftLeft_eq]
        exact Nat.mul_pos (by omega) (pow_pos (by norm_num) shift)
      have hdt2 : time_to_sf_qos_update_ns
          ⟨tgt, dmax, shift, tb + dmax, te - (tb + dmax - te) >>> shift, 0⟩ tf =
          -((min dmax ((tf - (te - (tb + dmax - te) >>> shift)) <<< shift) : Nat) : Int) := by
        rw [ttq_idle _ _ rfl hc]
        show negS32 (toS32 (min dmax
          (((tf - (te - (tb + dmax - te) >>> shift)) <<< shift) % 2 ^ 64))) = _
        rw [hw2]
        exact negS32_toS32_of_lt (lt_of_le_of_lt (Nat.min_le_left _ _) hd2)
      simp only [intel_qos_timeout, hdt2]
      rw [if_neg (show
        ¬-((min dmax ((tf - (te - (tb + dmax - te) >>> shift)) <<< shift) : Nat) : Int) = 0 by
        push_cast; omega)]

/-- Witness for `C7_short_burst_never_target` at concrete inputs: a 1 ns burst
with `delay_max_ns = 100`, fully decayed idle history. -/
theorem C7_short_burst_never_target_witness :
    ((1 : Nat) ≤ 100 ∧ (100 : Nat) < 2 ^ 31 ∧ (100 : Nat) ≤ 1000 ∧
      (100 : Nat) ≤ (1000 - 0) <<< 0 ∧ (1000 - 0) <<< 0 < 2 ^ 64 ∧
      (1000 : Nat) ≤ 1001 ∧ (1001 : Nat) < 1000 + 100 ∧ 1000 + 100 < 2 ^ 64) ∧
      ((1000 ≤ 1000 → 1000 < 1001 →
        (intel_qos_timeout
            (qos_after_burst_begin ⟨2, 100, 0, 0, 0, 0⟩ 1000) 1000).1 =
          PM_QOS_DEFAULT_VALUE) ∧
        (1001 ≤ 1000 →
          (1000 - (qos_after_burst_end ⟨2, 100, 0, 0, 0, 0⟩ 1000 1001).time_clear_ns)
              <<< 0 < 2 ^ 64 →
          (intel_qos_timeout
              (qos_after_burst_end ⟨2, 100, 0, 0, 0, 0⟩ 1000 1001) 1000).1 =
            PM_QOS_DEFAULT_VALUE)) :=
  ⟨⟨by decide, by decide, by decide, by decide, by decide, by decide, by decide,
      by decide⟩,
    C7_short_burst_never_target 2 100 0 0 0 1000 1001 1000 (by decide) (by decide)
      (by decide) (by decide) (by decide) (by decide) (by decide) (by decide)⟩

/-! ### Claim C8 -/

/-- The absolute deadline requested by one delayed-update call
(`jiffies + nsecs_to_jiffies(max(0, dt))`, modelled in nanoseconds). -/
def sf_qos_requested_deadline (q : Qos) (t1 : Nat) : Nat :=
  t1 + (max 0 (time_to_sf_qos_update_ns q t1)).toNat

theorem timer_reduce_eq_min (e d : Nat) :
    timer_reduce (some e) d = some (min e d) := by
  simp only [timer_reduce, Nat.min_def]
  split <;> rfl

theorem foldl_intel_qos_update_some (calls : List (Qos × Nat)) (e : Nat) :
    calls.foldl (fun tm c => intel_qos_update c.1 c.2 tm) (some e) =
      some ((calls.map fun c => sf_qos_requested_deadline c.1 c.2).foldl min e) := by
  induction calls generalizing e with
  | nil => rfl
  | cons c cs ih =>
      simp only [List.foldl_cons, List.map_cons]
      rw [show intel_qos_update c.1 c.2 (some e) =
            some (min e (sf_qos_requested_deadline c.1 c.2)) from
          timer_reduce_eq_min _ _, ih]

/-- **C8.**  For every sequence of delayed-update (`intel_qos_update`) calls
made while the timer is unarmed (i.e. since it last fired), the armed deadline
equals the minimum over all requested deadlines: the "reduce" semantics never
let a same-or-later request delay an already-armed earlier deadline. -/
theorem C8_armed_deadline_is_min (calls : List (Qos × Nat)) :
    calls.foldl (fun tm c => intel_qos_update c.1 c.2 tm) none =
      (calls.map fun c => sf_qos_requested_deadline c.1 c.2).min? := by
  cases calls with
  | nil => rfl
  | cons c cs =>
      rw [List.foldl_cons, List.map_cons, List.min?_cons',
        show intel_qos_update c.1 c.2 none = some (sf_qos_requested_deadline c.1 c.2)
          from rfl,
        foldl_intel_qos_update_some]

/-! ### Claim C9 -/

/-- **C9** (counterexample).  The claim that an unmatched `overload_end` is
made detectable (saturating `active_count` at zero or flagging) fails on the
code: from `active_count = 0` a call leaves `active_count = -1` (negative,
not saturated, no flag is set), and from `active_count = INT_MIN` the plain
atomic decrement silently wraps to the nonzero, positive value `INT_MAX`,
which classifies the resource as bottlenecked. -/
theorem C9_counterexample :
    ((intel_qos_overload_end ⟨2, 10000000, 1, 0, 0, 0⟩ 0 none).1).active_count =
        -1 ∧
      ((intel_qos_overload_end ⟨2, 10000000, 1, 0, 0, -2147483648⟩ 0 none).1).active_count =
        2147483647 ∧
      (2147483647 : Int) ≠ 0 :=
  ⟨by decide, by decide, by decide⟩

/-- **C9** (amended).  An `overload_end` without a matching prior
`overload_begin` is a documented precondition violation that the
implementation does not detect: `intel_qos_overload_end` always performs a
plain wrapping 32-bit signed decrement of `active_count` (no saturation at
zero, no flag), so from `active_count = 0` the counter silently becomes
`-1`. -/
theorem C9_unmatched_end_wraps (q : Qos) (t1 : Nat) (tm : Option Nat) :
    ((intel_qos_overload_end q t1 tm).1).active_count =
        wrapS32 (q.active_count - 1) ∧
      (q.active_count = 0 →
        ((intel_qos_overload_end q t1 tm).1).active_count = -1) := by
  have base : ((intel_qos_overload_end q t1 tm).1).active_count =
      wrapS32 (q.active_count - 1) := by
    simp only [intel_qos_overload_end]
    split <;> rfl
  exact ⟨base, fun h => by rw [base, h]; decide⟩

/-- Witness for `C9_unmatched_end_wraps` at a concrete state. -/
theorem C9_unmatched_end_wraps_witness :
    ((intel_qos_overload_end ⟨2, 10, 0, 0, 0, 0⟩ 3 none).1).active_count =
        wrapS32 (0 - 1) ∧
      ((0 : Int) = 0 →
        ((intel_qos_overload_end ⟨2, 10, 0, 0, 0, 0⟩ 3 none).1).active_count = -1) :=
  C9_unmatched_end_wraps ⟨2, 10, 0, 0, 0, 0⟩ 3 none

/-! ### Claim C10 -/

/-- **C10.**  The two copies of the QoS controller — the `rf_qos` functions in
`intel_gt_pm.c` and the `intel_qos` functions in the standalone module —
compute identical results for every operation: given equal configuration,
equal atomic state and equal clock readings, the time-to-update computation,
the delayed update, the timer callback, and the begin/end operations agree on
all outputs and state updates. -/
theorem C10_rf_sf_equivalent :
    (∀ (q : Qos) (t1 : Nat),
        time_to_rf_qos_update_ns q t1 = time_to_sf_qos_update_ns q t1) ∧
      (∀ (q : Qos) (t1 : Nat) (tm : Option Nat),
        intel_gt_rf_qos_update q t1 tm = intel_qos_update q t1 tm) ∧
      (∀ (q : Qos) (t1 : Nat),
        intel_gt_rf_qos_timeout q t1 = intel_qos_timeout q t1) ∧
      (∀ (q : Qos) (t1 : Nat) (tm : Option Nat),
        intel_gt_pm_active_begin q t1 tm = intel_qos_overload_begin q t1 tm) ∧
      (∀ (q : Qos) (t1 : Nat) (tm : Option Nat),
        intel_gt_pm_active_end q t1 tm = intel_qos_overload_end q t1 tm) :=
  ⟨fun _ _ => rfl, fun _ _ _ => rfl, fun _ _ => rfl, fun _ _ _ => rfl,
    fun _ _ _ => rfl⟩

end IntelQos
